import Mathlib

/-!
Verification of the Career-Assistant scoring and aggregation core.

Shallow embedding of the deterministic parts of the repository:
the ATS rule engine (`utils/ats_rules.py`), the model-service gateway and
its two provider handlers (`models/model_manager.py`,
`models/openai_handler.py`, `models/anthropic_handler.py`), the CV/job
matcher (`agents/primary_agents/cv_matcher.py`), the score aggregators
(`core/quality_metrics.py`, `agents/coordinator.py`) and the workflow
orchestrator (`core/workflow_manager.py`).

Python floats are modelled as rationals; Python dicts whose iteration
order matters are modelled as association lists in insertion order; LLM
providers and `json.loads` are modelled as oracle parameters, since both
are external collaborators of the embedded code.
-/

namespace CareerAssistant

/-! ## Python primitives -/

/-- Python `round(x, 2)`: round to 2 decimal places, ties to even
(banker's rounding, as Python's built-in `round` does). -/
def pyRoundInt (q : ℚ) : ℤ :=
  let f := ⌊q⌋
  let frac := q - f
  if frac < 1/2 then f
  else if 1/2 < frac then f + 1
  else if f % 2 = 0 then f else f + 1

def round2 (q : ℚ) : ℚ := (pyRoundInt (q * 100) : ℚ) / 100

/-- Python `str.lower()` (ASCII semantics, which covers every string the
source compares). -/
def pyLower (s : String) : String := ⟨s.toList.map Char.toLower⟩

/-- Occurrence test for Python's `needle in hay` on strings, over char
lists. -/
def occursIn (needle : List Char) : List Char → Bool
  | [] => needle.isEmpty
  | c :: t => List.isPrefixOf needle (c :: t) || occursIn needle t

/-- Python `needle in hay` for strings. -/
def inStr (needle hay : String) : Bool := occursIn needle.toList hay.toList

/-- Fuel-driven core of Python `str.replace(old, new)` (all
non-overlapping occurrences, left to right); each step consumes at least
one character, so `fuel = length` suffices. -/
def replaceFuel (old new : List Char) : ℕ → List Char → List Char
  | _, [] => []
  | 0, s => s
  | Nat.succ fuel, c :: rest =>
    if List.isPrefixOf old (c :: rest) then
      new ++ replaceFuel old new fuel (rest.drop (old.length - 1))
    else
      c :: replaceFuel old new fuel rest

/-- Python `s.replace(old, new)`; the empty-pattern case never arises in
the embedded code. -/
def pyReplace (s old new : String) : String :=
  if old.isEmpty then s
  else ⟨replaceFuel old.toList new.toList s.length s.toList⟩

/-- Splitter behind Python `s.split()`: whitespace-separated words,
empty chunks discarded. -/
def wordsAux : List Char → List Char → List (List Char)
  | [], cur => if cur.isEmpty then [] else [cur.reverse]
  | c :: t, cur =>
    if c.isWhitespace then
      if cur.isEmpty then wordsAux t [] else cur.reverse :: wordsAux t []
    else
      wordsAux t (c :: cur)

/-- Python `' '.join(s.split())`: collapse whitespace runs to single
spaces and strip the ends. -/
def collapseWhitespace (s : List Char) : List Char :=
  List.intercalate [' '] (wordsAux s [])

/-! ## ATSRules (`utils/ats_rules.py`) -/

/-- Result shape `{valid: bool, issues: list[str]}` returned by both
validators. -/
structure ValidationResult where
  valid : Bool
  issues : List String
deriving DecidableEq

/-- `format_rules['allowed_formats']`. -/
def allowed_formats : List String := [".pdf", ".docx"]

/-- `ATSRules.validate_format` (lines 109-135): extension must be in the
allowed set after lower-casing, size must not exceed 10 MB; both checks
always run and each failure appends one issue string. -/
def validate_format (file_format : String) (file_size_mb : ℚ) : ValidationResult :=
  let formatIssues :=
    if allowed_formats.contains (pyLower file_format) then []
    else ["Unsupported format. Use .pdf, .docx"]
  let sizeIssues :=
    if file_size_mb > 10 then ["File too large. Maximum size is 10MB"] else []
  let issues := formatIssues ++ sizeIssues
  ⟨issues.isEmpty, issues⟩

/-- `structure_rules['required_sections']`. -/
def required_sections : List String :=
  ["contact_information", "professional_experience", "education", "skills"]

/-- `structure_rules['section_titles']`, in dict insertion order. -/
def section_titles : List (String × List String) :=
  [ ("contact",
      ["contact", "contact information", "personal information",
       "personal details", "personal info"]),
    ("experience",
      ["experience", "work experience", "professional experience",
       "work history", "employment history", "professional background"]),
    ("education",
      ["education", "academic background", "qualifications",
       "academic qualifications", "educational background"]),
    ("skills",
      ["skills", "technical skills", "competencies", "key skills",
       "core competencies", "professional skills"]) ]

/-- Replacement table of `_normalize_section_title`, in dict insertion
order. -/
def title_replacements : List (String × String) :=
  [ ("edu", "education"), ("academic", "education"),
    ("qualification", "education"), ("exp", "experience"),
    ("professional", "experience"), ("employment", "experience"),
    ("work", "experience"), ("comp", "competencies"),
    ("tech", "technical") ]

/-- `ATSRules._normalize_section_title` (lines 184-215): keep
alphanumeric/whitespace characters lower-cased, collapse whitespace,
then apply each replacement (all occurrences) in table order whenever
the pattern occurs. -/
def normalize_section_title (title : String) : String :=
  let filtered := (title.toList.filter (fun c => c.isAlphanum || c.isWhitespace)).map Char.toLower
  let collapsed : String := ⟨collapseWhitespace filtered⟩
  title_replacements.foldl
    (fun acc p => if inStr p.1 acc then pyReplace acc p.1 p.2 else acc)
    collapsed

/-- `ATSRules.validate_structure` (lines 137-182).  For each required
section name, the category key is looked up with
`required.replace('_','') in stype` (the underscore-stripped required
name must occur inside the category key); when a category is found, its
normalized synonym variants are matched as substrings of the normalized
input titles, and a miss appends one issue.  `valid` iff no issues. -/
def validate_structure (sections : List String) : ValidationResult :=
  let normalized_sections := sections.map normalize_section_title
  let issues := required_sections.foldr
    (fun required acc =>
      match section_titles.find? (fun st => inStr (pyReplace required "_" "") st.1) with
      | none => acc
      | some st =>
        let variants := st.2.map normalize_section_title
        if variants.any (fun variant =>
            normalized_sections.any (fun sec => inStr variant sec)) then
          acc
        else
          ("Missing required section: " ++ required) :: acc)
    []
  ⟨issues.isEmpty, issues⟩

/-! ## CVMatcher (`agents/primary_agents/cv_matcher.py`)

The matcher combines the CV analysis and the job analysis (both produced
upstream by LLM agents) with explicit numeric formulas.  The analyses are
modelled as records holding exactly the fields the matcher reads; the
`confidence` factor and the free-text recommendation list are elided, as
no claim concerns them. -/

/-- A value that may sit in a `years` field of an analysis dict: the
source accepts ints/floats (already truncated to int here), strings, and
anything else. -/
inductive YearsVal where
  | int (n : ℤ)
  | str (s : String)
  | other
deriving DecidableEq

/-- Decimal value of a digit list (Python `int` on a digit string). -/
def digitsVal (ds : List Char) : ℕ :=
  ds.foldl (fun acc c => acc * 10 + (c.toNat - 48)) 0

/-- `CVMatcher._extract_years` (lines 46-57): numbers pass through,
strings keep their digits (0 if none), everything else is 0. -/
def extract_years : YearsVal → ℤ
  | .int n => n
  | .str s =>
    let ds := s.toList.filter Char.isDigit
    if ds.isEmpty then 0 else (digitsVal ds : ℤ)
  | .other => 0

/-- Fields of the CV analysis read by the matcher:
`skills.technical_skills`, `experience.years`, `education`. -/
structure CVAnalysis where
  technical_skills : List String
  experience_years : YearsVal
  education : String

/-- Fields of the job analysis read by the matcher:
`requirements.required_skills / preferred_skills / experience /
education`. -/
structure JobAnalysis where
  required_skills : List String
  preferred_skills : List String
  experience : YearsVal
  education : String

/-- `CVMatcher.matching_weights` (lines 23-28), in dict insertion
order. -/
def matching_weights : List (String × ℚ) :=
  [("required_skills", 0.4), ("experience", 0.3), ("education", 0.2),
   ("soft_skills", 0.1)]

/-- Dict access `w[key]` on a weight table (every key used is present). -/
def wlookup (key : String) (w : List (String × ℚ)) : ℚ :=
  ((w.find? (fun p => p.1 == key)).map (fun p => p.2)).getD 0

/-- `CVMatcher._calculate_skills_match` (lines 101-132): Python `set`s
become finsets; each recall is 100 when its requirement set is empty,
else `|cv ∩ req| / |req| * 100`; the total weights required recall 0.7
and preferred recall 0.3.  Only the rounded score is kept (the
matched/missing lists are not read by any claim). -/
def calculate_skills_match (cv : CVAnalysis) (job : JobAnalysis) : ℚ :=
  let required_skills := job.required_skills.toFinset
  let preferred_skills := job.preferred_skills.toFinset
  let cv_skills := cv.technical_skills.toFinset
  let required_matches := cv_skills ∩ required_skills
  let preferred_matches := cv_skills ∩ preferred_skills
  let required_score : ℚ :=
    if required_skills.card = 0 then 100
    else (required_matches.card : ℚ) / required_skills.card * 100
  let preferred_score : ℚ :=
    if preferred_skills.card = 0 then 100
    else (preferred_matches.card : ℚ) / preferred_skills.card * 100
  round2 (required_score * 0.7 + preferred_score * 0.3)

/-- `CVMatcher._calculate_experience_match` (lines 143-170). -/
def calculate_experience_match (cv : CVAnalysis) (job : JobAnalysis) : ℚ :=
  let cv_years := extract_years cv.experience_years
  let required_years := extract_years job.experience
  let score : ℚ :=
    if required_years = 0 then 100
    else if cv_years ≥ required_years then 100
    else if required_years > 0 then (cv_years : ℚ) / required_years * 100
    else 0
  round2 score

/-- `education_levels` table (lines 175-182), in dict insertion order. -/
def education_levels : List (String × ℤ) :=
  [("phd", 4), ("doctorate", 4), ("master", 3), ("bachelor", 2),
   ("associate", 1), ("high school", 0)]

/-- `CVMatcher._calculate_education_match` (lines 172-224): ordinal of
the highest level name occurring as a substring of the lower-cased
free-text education field, on each side; 100 when there is no
requirement or the CV meets it, else the linear ratio. -/
def calculate_education_match (cv : CVAnalysis) (job : JobAnalysis) : ℚ :=
  let required_edu := pyLower job.education
  let cv_edu := pyLower cv.education
  let required_level : ℤ := education_levels.foldl
    (fun acc p => if inStr p.1 required_edu then max acc p.2 else acc) 0
  let cv_level : ℤ := education_levels.foldl
    (fun acc p => if inStr p.1 cv_edu then max acc p.2 else acc) 0
  let score : ℚ :=
    if required_level = 0 then 100
    else if cv_level ≥ required_level then 100
    else if required_level > 0 then (cv_level : ℚ) / required_level * 100
    else 0
  round2 score

/-- `CVMatcher._get_match_level` (lines 247-258). -/
def get_match_level (score : ℚ) : String :=
  if score ≥ 90 then "Excellent Match"
  else if score ≥ 75 then "Strong Match"
  else if score ≥ 60 then "Good Match"
  else if score ≥ 40 then "Partial Match"
  else "Low Match"

/-- `overall_match` part of the match analysis. -/
structure OverallMatch where
  score : ℚ
  match_level : String

/-- Numeric part of the dict returned by `match_cv_to_job`. -/
structure MatchAnalysis where
  overall_match : OverallMatch
  skills_match : ℚ
  experience_match : ℚ
  education_match : ℚ

/-- `CVMatcher.match_cv_to_job` (lines 59-99), its deterministic
aggregation step: the three sub-scores are combined with the
`matching_weights` entries for required_skills / experience / education
(the soft_skills weight is never used), the overall score is rounded to
2 decimals, and the match level is classified on the unrounded sum. -/
def match_cv_to_job (cv : CVAnalysis) (job : JobAnalysis) : MatchAnalysis :=
  let skills_match := calculate_skills_match cv job
  let experience_match := calculate_experience_match cv job
  let education_match := calculate_education_match cv job
  let match_score :=
    skills_match * wlookup "required_skills" matching_weights +
    experience_match * wlookup "experience" matching_weights +
    education_match * wlookup "education" matching_weights
  ⟨⟨round2 match_score, get_match_level match_score⟩,
    skills_match, experience_match, education_match⟩

/-! ## QualityMetrics (`core/quality_metrics.py`) and Coordinator
(`agents/coordinator.py`) -/

/-- `QualityMetrics.quality_thresholds` (lines 33-38). -/
def quality_thresholds : List (String × ℚ) :=
  [("cv_minimum_score", 75), ("letter_minimum_score", 75),
   ("ats_minimum_score", 75), ("overall_minimum_score", 75)]

/-- Weight dict local to `calculate_overall_quality` (lines 165-169). -/
def qm_overall_weights : List (String × ℚ) :=
  [("cv", 0.4), ("letter", 0.3), ("ats", 0.3)]

/-- Numeric part of the dict returned by `calculate_overall_quality`. -/
structure OverallQuality where
  overall_score : ℚ
  meets_threshold : Bool

/-- `QualityMetrics.calculate_overall_quality` (lines 161-192): weighted
sum cv 0.4 / letter 0.3 / ats 0.3; the returned score is rounded to 2
decimals while the threshold test compares the unrounded sum to 75. -/
def calculate_overall_quality (cv_score letter_score ats_score : ℚ) : OverallQuality :=
  let overall_score :=
    cv_score * wlookup "cv" qm_overall_weights +
    letter_score * wlookup "letter" qm_overall_weights +
    ats_score * wlookup "ats" qm_overall_weights
  ⟨round2 overall_score,
    decide (overall_score ≥ wlookup "overall_minimum_score" quality_thresholds)⟩

/-- `Coordinator.quality_weights` (lines 22-26). -/
def coordinator_quality_weights : List (String × ℚ) :=
  [("ats_compliance", 0.4), ("cv_quality", 0.4), ("letter_quality", 0.2)]

/-- `Coordinator._aggregate_results` (lines 117-139), its
`overall_score` field: ats 0.4 / cv 0.4 / letter 0.2, rounded to 2
decimals (the component scores are echoed unchanged). -/
def aggregate_results (ats_overall cv_overall letter_overall : ℚ) : ℚ :=
  let ats_score := ats_overall * wlookup "ats_compliance" coordinator_quality_weights
  let cv_score := cv_overall * wlookup "cv_quality" coordinator_quality_weights
  let letter_score := letter_overall * wlookup "letter_quality" coordinator_quality_weights
  round2 (ats_score + cv_score + letter_score)

/-! ## WorkflowManager (`core/workflow_manager.py`) -/

/-- The five `workflow_states` flags, in dict insertion order. -/
structure WorkflowStates where
  document_processing : Bool
  initial_analysis : Bool
  optimization : Bool
  letter_generation : Bool
  quality_check : Bool
deriving DecidableEq

/-- `_reset_workflow_states` (lines 136-139). -/
def resetStates : WorkflowStates := ⟨false, false, false, false, false⟩

/-- Outcomes of the collaborator calls made by `process_application`:
`doc_success` is the `success` flag of the document processor, every
other field tells whether the corresponding agent call returns normally
(`false` = it raises). -/
structure WorkflowEnv where
  doc_success : Bool
  cv_analyze_ok : Bool
  job_analyze_ok : Bool
  match_ok : Bool
  optimize_ok : Bool
  letter_ok : Bool
  quality_ok : Bool

/-- `WorkflowManager.process_application` (lines 56-134), control-flow
skeleton: states are reset, each stage flag is set only after its calls
return, a document-processing failure raises a ValueError, any raising
call aborts with the partial flag set preserved, and the
letter-generation stage runs only when `generate_letter` is true. -/
def process_application (env : WorkflowEnv) (generate_letter : Bool) :
    Except Unit Unit × WorkflowStates :=
  let s := resetStates
  if ¬ env.doc_success then (.error (), s) else
  let s : WorkflowStates := ⟨true, s.initial_analysis, s.optimization, s.letter_generation, s.quality_check⟩
  if ¬ env.cv_analyze_ok then (.error (), s) else
  if ¬ env.job_analyze_ok then (.error (), s) else
  if ¬ env.match_ok then (.error (), s) else
  let s : WorkflowStates := ⟨s.document_processing, true, s.optimization, s.letter_generation, s.quality_check⟩
  if ¬ env.optimize_ok then (.error (), s) else
  let s : WorkflowStates := ⟨s.document_processing, s.initial_analysis, true, s.letter_generation, s.quality_check⟩
  if generate_letter ∧ ¬ env.letter_ok then (.error (), s) else
  let s : WorkflowStates :=
    if generate_letter then
      ⟨s.document_processing, s.initial_analysis, s.optimization, true, s.quality_check⟩
    else s
  if ¬ env.quality_ok then (.error (), s) else
  let s : WorkflowStates := ⟨s.document_processing, s.initial_analysis, s.optimization, s.letter_generation, true⟩
  (.ok (), s)

/-- `self.workflow_states.items()`, in dict insertion order. -/
def workflow_state_list (s : WorkflowStates) : List (String × Bool) :=
  [("document_processing", s.document_processing),
   ("initial_analysis", s.initial_analysis),
   ("optimization", s.optimization),
   ("letter_generation", s.letter_generation),
   ("quality_check", s.quality_check)]

/-- Shape of `get_workflow_status`'s result. -/
structure WorkflowStatus where
  completed_steps : ℕ
  total_steps : ℕ
  completion_percentage : ℚ
  step_status : List (String × Bool × ℕ)

/-- `WorkflowManager.get_workflow_status` (lines 141-157). -/
def get_workflow_status (s : WorkflowStates) : WorkflowStatus :=
  let l := workflow_state_list s
  let completed_steps := (l.filter (fun p => p.2)).length
  let total_steps := l.length
  ⟨completed_steps, total_steps,
    round2 ((completed_steps : ℚ) / total_steps * 100),
    l.enum.map (fun p => (p.2.1, p.2.2, p.1 + 1))⟩

/-- A flag list is downward closed (a prefix of trues followed by
falses) iff no false flag precedes a true one. -/
def prefixClosed : List Bool → Bool
  | [] => true
  | [_] => true
  | a :: b :: t => (a || !b) && prefixClosed (b :: t)

/-! ## Model service gateway (`models/model_manager.py`,
`models/openai_handler.py`, `models/anthropic_handler.py`)

The two LLM providers and `json.loads` are external collaborators: they
are modelled as oracle fields of an `Env`.  A backend maps the fully
resolved request the handler builds (prompt, system message, effective
temperature and max-tokens) to either a transport failure or raw
response text; `decode` maps cleaned response text to a parsed JSON
object, `none` standing for `json.JSONDecodeError`. -/

/-- Parsed JSON values (the fragment the embedded code stores). -/
inductive JValue where
  | jstr (s : String)
  | jnum (q : ℚ)
  | jbool (b : Bool)
  | jnull
  | jlist (xs : List JValue)
  | jobj (fields : List (String × JValue))

/-- A parsed top-level JSON object, in key insertion order. -/
abbrev JObj := List (String × JValue)

/-- A schema value: the dicts passed as `output_schema` map field names
to a type-hint string or to a list of hint strings. -/
inductive SchemaVal where
  | sstr (hint : String)
  | slist (hints : List String)

/-- An `output_schema` dict, in key insertion order. -/
abbrev Schema := List (String × SchemaVal)

/-- `[] if isinstance(v, list) else ""`: the per-field default used by
the OpenAI handler. -/
def defaultFor : SchemaVal → JValue
  | .sstr _ => .jstr ""
  | .slist _ => .jlist []

/-- `{k: [] if isinstance(v, list) else "" for k, v in
output_schema.items()}`: the schema-shaped default object. -/
def defaultObj (schema : Schema) : JObj :=
  schema.map (fun kv => (kv.1, defaultFor kv.2))

/-- Python `key in structured_response` on a dict. -/
def objHasKey (obj : JObj) (k : String) : Bool :=
  obj.any (fun kv => kv.1 == k)

/-- The post-parse schema validation loop of
`OpenAIHandler.get_structured_completion` (lines 116-119): every schema
key absent from the parsed dict is appended with its type-appropriate
default, in schema order. -/
def injectDefaults (schema : Schema) (obj : JObj) : JObj :=
  schema.foldl
    (fun acc kv => if objHasKey acc kv.1 then acc else acc ++ [(kv.1, defaultFor kv.2)])
    obj

/-- Models `json.dumps(output_schema, ...)` up to whitespace; the dumped
text only ever flows into prompt strings, which the oracles treat as
opaque. -/
def schemaValDump : SchemaVal → String
  | .sstr hint => "\"" ++ hint ++ "\""
  | .slist hints =>
    "[" ++ String.intercalate ", " (hints.map (fun h => "\"" ++ h ++ "\"")) ++ "]"

def schemaDump (schema : Schema) : String :=
  "\x7b" ++
    String.intercalate ", "
      (schema.map (fun kv => "\"" ++ kv.1 ++ "\": " ++ schemaValDump kv.2)) ++
  "\x7d"

/-- The request a handler's `get_completion` sends to its provider
client, with the config defaults already applied. -/
structure Req where
  prompt : String
  system_message : Option String
  temperature : ℚ
  max_tokens : ℕ
deriving DecidableEq

/-- Python truthiness defaulting `x or d` for an optional float
(`0.0` is falsy). -/
def orDefaultQ (x : Option ℚ) (d : ℚ) : ℚ :=
  match x with
  | some v => if v = 0 then d else v
  | none => d

/-- Python `x or d` for an optional int (`0` is falsy). -/
def orDefaultN (x : Option ℕ) (d : ℕ) : ℕ :=
  match x with
  | some v => if v = 0 then d else v
  | none => d

/-- Python `x or d` for an optional string (`""` is falsy). -/
def orDefaultS (x : Option String) (d : String) : String :=
  match x with
  | some v => if v = "" then d else v
  | none => d

/-- `if system_message:` — an empty or absent system message is not
attached to the request. -/
def truthyOptS (x : Option String) : Option String :=
  match x with
  | some v => if v = "" then none else some v
  | none => none

/-- Request built by `OpenAIHandler.get_completion` (lines 51-68) for
the default `gpt-4o-mini` config: `temperature or 0.7`,
`max_tokens or 4000`. -/
def openaiRequest (prompt : String) (system_message : Option String)
    (temperature : Option ℚ) (max_tokens : Option ℕ) : Req :=
  ⟨prompt, truthyOptS system_message, orDefaultQ temperature 0.7,
    orDefaultN max_tokens 4000⟩

/-- Request built by `AnthropicHandler.get_completion` (lines 47-68) for
the default `claude-3-opus-20240229` config: `temperature or 0.7`,
`max_tokens or 4096`. -/
def anthropicRequest (prompt : String) (system_message : Option String)
    (temperature : Option ℚ) (max_tokens : Option ℕ) : Req :=
  ⟨prompt, truthyOptS system_message, orDefaultQ temperature 0.7,
    orDefaultN max_tokens 4096⟩

/-- The external collaborators of the gateway. -/
structure Env where
  openaiBackend : Req → Except Unit String
  anthropicBackend : Req → Except Unit String
  decode : String → Option JObj

/-- Markdown code-fence stripping in
`OpenAIHandler.get_structured_completion` (lines 101-110). -/
def stripFences (response : String) : String :=
  let cleaned := response.trim
  let cleaned := if cleaned.startsWith "```json" then cleaned.drop 7 else cleaned
  let cleaned := if cleaned.startsWith "```" then cleaned.drop 3 else cleaned
  let cleaned := if cleaned.endsWith "```" then cleaned.dropRight 3 else cleaned
  cleaned.trim

/-- The schema-annotated first prompt of
`OpenAIHandler.get_structured_completion` (lines 83-88). -/
def openaiSchemaPrompt (prompt : String) (schema : Schema) : String :=
  prompt ++ "\n\n" ++
  "Important: Provide your response in valid JSON format following this schema:\n" ++
  schemaDump schema ++
  "\nEnsure the response is a properly formatted JSON object with no trailing commas or comments."

/-- The stricter fallback prompt of
`OpenAIHandler.get_structured_completion` (lines 128-133). -/
def openaiFallbackPrompt (prompt : String) (schema : Schema) : String :=
  prompt ++ "\n\n" ++
  "CRITICAL: Your response MUST be a valid JSON object. " ++
  "Do not include any additional text, markdown, or explanations. " ++
  "Use exactly this structure:\n" ++ schemaDump schema

/-- The first request issued by the OpenAI structured completion:
temperature argument 0.1 (truthy, so effective 0.1). -/
def openaiFirstReq (prompt : String) (schema : Schema)
    (system_message : Option String) : Req :=
  openaiRequest (openaiSchemaPrompt prompt schema)
    (some (orDefaultS system_message
      "You are a helpful assistant that always responds with valid JSON matching the requested schema."))
    (some 0.1) none

/-- The retry request issued on a parse failure: temperature argument
0.0, which Python's `temperature or config[...]` maps to the config
default 0.7. -/
def openaiRetryReq (prompt : String) (schema : Schema) : Req :=
  openaiRequest (openaiFallbackPrompt prompt schema)
    (some "You must respond with only valid JSON matching the schema.")
    (some 0) none

/-- `OpenAIHandler.get_structured_completion` (lines 77-150), paired
with the list of provider requests it issues.  The outer
`except Exception` (lines 148-150) converts every failure — including a
transport failure of either call — into the schema-shaped default
object, so the function is total and never signals an error. -/
def openai_get_structured_completion (env : Env) (prompt : String)
    (schema : Schema) (system_message : Option String) : JObj × List Req :=
  let req1 := openaiFirstReq prompt schema system_message
  match env.openaiBackend req1 with
  | .error _ => (defaultObj schema, [req1])
  | .ok response =>
    match env.decode (stripFences response) with
    | some structured_response => (injectDefaults schema structured_response, [req1])
    | none =>
      let req2 := openaiRetryReq prompt schema
      match env.openaiBackend req2 with
      | .error _ => (defaultObj schema, [req1, req2])
      | .ok response2 =>
        match env.decode response2.trim with
        | some obj => (obj, [req1, req2])
        | none => (defaultObj schema, [req1, req2])

/-- First index of a character in a char list. -/
def firstIdxOf (c : Char) : List Char → Option ℕ
  | [] => none
  | x :: t => if x == c then some 0 else (firstIdxOf c t).map (fun i => i + 1)

/-- Last index of a character in a char list (Python `str.rfind`). -/
def lastIdxOf (c : Char) (l : List Char) : Option ℕ :=
  (firstIdxOf c l.reverse).map (fun i => l.length - 1 - i)

/-- Brace slicing in `AnthropicHandler.get_structured_completion`
(lines 88-93): the substring from the first `LCB` to the last `RCB`
inclusive, when `start_idx >= 0 and end_idx > start_idx`. -/
def extractBraces (response : String) : Option String :=
  let cs := response.toList
  match firstIdxOf '\x7b' cs, lastIdxOf '\x7d' cs with
  | some start_idx, some r =>
    if r + 1 > start_idx then
      some ⟨(cs.drop start_idx).take (r + 1 - start_idx)⟩
    else none
  | _, _ => none

/-- The Anthropic handler's whole parse step (lines 88-93): slice
between the braces, then `json.loads`; `none` covers both the missing
braces `ValueError` and a `JSONDecodeError`, which the handler treats
identically. -/
def anthropicParseObj (env : Env) (response : String) : Option JObj :=
  match extractBraces response with
  | some json_str => env.decode json_str
  | none => none

/-- Error taxonomy surfaced by the Anthropic handler: transport
exceptions (re-raised by line 68/100) and the `ValueError` raised on a
parse failure (line 96, re-raised by line 100). -/
inductive HandlerErr where
  | transport
  | parse
deriving DecidableEq

/-- The schema-annotated prompt of
`AnthropicHandler.get_structured_completion` (lines 75-79). -/
def anthropicSchemaPrompt (prompt : String) (schema : Schema) : String :=
  prompt ++ "\n\n" ++
  "Please provide the response in the following JSON format: " ++
  schemaDump schema ++ "\nEnsure the response is valid JSON."

/-- The single request issued by the Anthropic structured completion:
temperature 0.3 (truthy), system message passed through. -/
def anthropicStructuredReq (prompt : String) (schema : Schema)
    (system_message : Option String) : Req :=
  anthropicRequest (anthropicSchemaPrompt prompt schema) system_message
    (some 0.3) none

/-- `AnthropicHandler.get_structured_completion` (lines 70-100), paired
with the list of provider requests it issues: one call, no retry; a
transport failure and a parse failure are both raised to the caller. -/
def anthropic_get_structured_completion (env : Env) (prompt : String)
    (schema : Schema) (system_message : Option String) :
    Except HandlerErr JObj × List Req :=
  let req := anthropicStructuredReq prompt schema system_message
  match env.anthropicBackend req with
  | .error _ => (.error .transport, [req])
  | .ok response =>
    match anthropicParseObj env response with
    | some obj => (.ok obj, [req])
    | none => (.error .parse, [req])

/-- The two configured providers. -/
inductive Provider where
  | openai
  | anthropic
deriving DecidableEq

/-- `model_config['task_preferences']` (lines 27-31). -/
def task_preferences : List (String × Provider) :=
  [("cv_analysis", .anthropic), ("job_matching", .openai),
   ("ats_optimization", .anthropic)]

/-- `model_config['fallback_order']` (line 26). -/
def fallback_order : List Provider := [.openai, .anthropic]

/-- `self.model_config['task_preferences'].get(task_type,
self.model_config['default'])` (lines 85-87). -/
def preferredService (task_type : Option String) : Provider :=
  match task_type with
  | none => .openai
  | some t => ((task_preferences.find? (fun p => p.1 == t)).map (fun p => p.2)).getD .openai

/-- One handler invocation from the manager: the OpenAI handler never
raises (its result is always returned), the Anthropic handler propagates
its errors. -/
def callProvider (env : Env) (p : Provider) (prompt : String)
    (schema : Schema) (system_message : Option String) : Except HandlerErr JObj :=
  match p with
  | .openai => .ok (openai_get_structured_completion env prompt schema system_message).1
  | .anthropic => (anthropic_get_structured_completion env prompt schema system_message).1

/-- The fallback loop of `ModelManager.get_structured_completion`
(lines 103-116): try each remaining provider in order, returning the
first success, remembering every provider tried. -/
def tryFallbacks (env : Env) (prompt : String) (schema : Schema)
    (system_message : Option String) :
    List Provider → Except Unit JObj × List Provider
  | [] => (.error (), [])
  | p :: rest =>
    match callProvider env p prompt schema system_message with
    | .ok r => (.ok r, [p])
    | .error _ =>
      let next := tryFallbacks env prompt schema system_message rest
      (next.1, p :: next.2)

/-- `ModelManager.get_structured_completion` (lines 80-118), paired with
the list of providers invoked in order: the preferred provider is tried
first; if it raises, every other provider of `fallback_order` is tried
once; if all fail the terminal `Exception("All services failed")` is
raised. -/
def manager_get_structured_completion (env : Env) (prompt : String)
    (schema : Schema) (task_type : Option String)
    (system_message : Option String) : Except Unit JObj × List Provider :=
  let service := preferredService task_type
  match callProvider env service prompt schema system_message with
  | .ok r => (.ok r, [service])
  | .error _ =>
    let next := tryFallbacks env prompt schema system_message
      (fallback_order.filter (fun p => p ≠ service))
    (next.1, service :: next.2)

/-! ## Oracle environments used by concrete test cases -/

/-- Environment whose OpenAI backend fails at the transport level. -/
def envOpenAIDown : Env := ⟨fun _ => .error (), fun _ => .ok "unused", fun _ => none⟩

/-- Environment whose Anthropic backend fails at the transport level
while the OpenAI backend answers (with undecodable text). -/
def envAnthDown : Env := ⟨fun _ => .ok "x", fun _ => .error (), fun _ => none⟩

/-- Environment in which both backends answer with text that does not
parse as JSON. -/
def envNotJson : Env := ⟨fun _ => .ok "notjson", fun _ => .ok "notjson", fun _ => none⟩

/-- Environment whose Anthropic backend answers with the JSON object
holding only the key `a`, and whose decoder parses exactly that text. -/
def envAnthAX : Env :=
  ⟨fun _ => .ok "", fun _ => .ok "\x7b\"a\": \"x\"\x7d",
    fun s => if s == "\x7b\"a\": \"x\"\x7d" then some [("a", JValue.jstr "x")] else none⟩

/-- Environment whose OpenAI backend answers and whose decoder parses
every response to the object holding only the key `a`. -/
def envOkayAX : Env :=
  ⟨fun _ => .ok "resp", fun _ => .ok "resp", fun _ => some [("a", JValue.jstr "x")]⟩

/-- Stage environment in which every collaborator call succeeds except
the letter writer (which is never reached when no letter is wanted). -/
def envAllOkNoLetter : WorkflowEnv := ⟨true, true, true, true, true, false, true⟩

/-! ## Helper lemmas -/

lemma pyRoundInt_intCast (n : ℤ) : pyRoundInt (n : ℚ) = n := by
  unfold pyRoundInt
  norm_num

lemma round2_eq_int (q : ℚ) (n : ℤ) (h : q * 100 = (n : ℚ)) :
    round2 q = (n : ℚ) / 100 := by
  rw [round2, h, pyRoundInt_intCast]

/-! ## Claim theorems -/

/-- Claim C1 (evaluation at the failing inputs): `validate_structure`
only ever checks the education and skills categories.  The category
lookup asks whether the underscore-stripped required name occurs inside
the category key, which is false for `contactinformation` vs `contact`
and for `professionalexperience` vs `experience`, so those two
categories are silently skipped: a CV containing only Education and
Skills validates cleanly, and the empty title list draws two issues
rather than four. -/
theorem validate_structure_checks_only_education_and_skills :
    validate_structure ["Education", "Skills"] = ⟨true, []⟩
    ∧ validate_structure [] =
        ⟨false, ["Missing required section: education",
                 "Missing required section: skills"]⟩ := by
  constructor <;> decide

/-- Claim C2 counterexample: with the default (openai) preference, a
transport failure of the OpenAI backend makes the gateway return the
schema-shaped default object after invoking only the openai handler —
the anthropic provider is never tried, contradicting the claimed
try-every-other-provider-before-anything-else behavior. -/
theorem openai_transport_failure_returns_default_without_fallback :
    manager_get_structured_completion envOpenAIDown "p"
        [("a", SchemaVal.sstr "string")] none none
      = (.ok [("a", JValue.jstr "")], [Provider.openai]) := rfl

/-- Claim C2 (amended): the fallback loop runs exactly when the
preferred handler raises, which only the Anthropic handler does; the
gateway then invokes openai — the only other configured provider — and
returns its result. -/
theorem fallback_runs_only_for_anthropic_preferred
    (env : Env) (p : String) (schema : Schema) (sm : Option String)
    (t : Option String) (e : HandlerErr)
    (h1 : preferredService t = Provider.anthropic)
    (h2 : (anthropic_get_structured_completion env p schema sm).1 = .error e) :
    manager_get_structured_completion env p schema t sm =
      (.ok (openai_get_structured_completion env p schema sm).1,
        [Provider.anthropic, Provider.openai]) := by
  have hc : callProvider env Provider.anthropic p schema sm = .error e := by
    simpa [callProvider] using h2
  have hf : fallback_order.filter (fun q => q ≠ Provider.anthropic) = [Provider.openai] := rfl
  simp [manager_get_structured_completion, h1, hc, hf, tryFallbacks, callProvider]
  rw [h2]

/-- Concrete instance of C2's amended theorem: a `cv_analysis` request
against a transport-failing Anthropic backend falls back to openai. -/
theorem fallback_runs_only_for_anthropic_preferred_witness :
    preferredService (some "cv_analysis") = Provider.anthropic
    ∧ (anthropic_get_structured_completion envAnthDown "p"
        [("a", SchemaVal.sstr "string")] none).1 = .error HandlerErr.transport
    ∧ manager_get_structured_completion envAnthDown "p"
        [("a", SchemaVal.sstr "string")] (some "cv_analysis") none
      = (.ok (openai_get_structured_completion envAnthDown "p"
            [("a", SchemaVal.sstr "string")] none).1,
         [Provider.anthropic, Provider.openai]) :=
  ⟨rfl, rfl,
    fallback_runs_only_for_anthropic_preferred envAnthDown "p"
      [("a", SchemaVal.sstr "string")] none (some "cv_analysis")
      HandlerErr.transport rfl rfl⟩

/-- Claim C3 counterexample: the Anthropic handler propagates a
parse failure as an exception after a single request — no re-prompt, no
default object — and the OpenAI retry request does not carry temperature
0: the handler's `temperature=0.0` argument is falsy, so the `or`
default makes the effective request temperature 0.7. -/
theorem anthropic_parse_failure_raises_without_retry :
    anthropic_get_structured_completion envNotJson "p"
        [("a", SchemaVal.sstr "string")] none
      = (.error HandlerErr.parse,
         [anthropicStructuredReq "p" [("a", SchemaVal.sstr "string")] none])
    ∧ (openaiRetryReq "p" [("a", SchemaVal.sstr "string")]).temperature ≠ 0 := by
  constructor
  · rfl
  · show orDefaultQ (some 0) 0.7 ≠ 0
    norm_num [orDefaultQ]

/-- Claim C3 (amended): for the OpenAI handler, a parse failure of the
first response triggers exactly one stricter same-provider re-prompt
(whose effective temperature is 0.7, not 0), and a second parse failure
yields the schema-shaped default; no exception escapes, the function
being total by construction.  The Anthropic handler instead raises. -/
theorem openai_parse_failure_single_retry_then_default
    (env : Env) (p : String) (schema : Schema) (sm : Option String)
    (r1 r2 ra : String)
    (h1 : env.openaiBackend (openaiFirstReq p schema sm) = .ok r1)
    (h2 : env.decode (stripFences r1) = none)
    (h3 : env.openaiBackend (openaiRetryReq p schema) = .ok r2)
    (h4 : env.decode r2.trim = none)
    (h5 : env.anthropicBackend (anthropicStructuredReq p schema sm) = .ok ra)
    (h6 : anthropicParseObj env ra = none) :
    openai_get_structured_completion env p schema sm =
      (defaultObj schema, [openaiFirstReq p schema sm, openaiRetryReq p schema])
    ∧ anthropic_get_structured_completion env p schema sm =
        (.error HandlerErr.parse, [anthropicStructuredReq p schema sm]) := by
  constructor
  · simp [openai_get_structured_completion, h1, h2, h3, h4]
  · simp [anthropic_get_structured_completion, h5, h6]

/-- Concrete instance of C3's amended theorem on a backend that always
answers undecodable text. -/
theorem openai_parse_failure_single_retry_then_default_witness :
    envNotJson.openaiBackend
        (openaiFirstReq "p" [("a", SchemaVal.sstr "string")] none) = .ok "notjson"
    ∧ envNotJson.decode (stripFences "notjson") = none
    ∧ envNotJson.openaiBackend
        (openaiRetryReq "p" [("a", SchemaVal.sstr "string")]) = .ok "notjson"
    ∧ envNotJson.decode "notjson".trim = none
    ∧ envNotJson.anthropicBackend
        (anthropicStructuredReq "p" [("a", SchemaVal.sstr "string")] none) = .ok "notjson"
    ∧ anthropicParseObj envNotJson "notjson" = none
    ∧ (openai_get_structured_completion envNotJson "p"
          [("a", SchemaVal.sstr "string")] none =
        (defaultObj [("a", SchemaVal.sstr "string")],
         [openaiFirstReq "p" [("a", SchemaVal.sstr "string")] none,
          openaiRetryReq "p" [("a", SchemaVal.sstr "string")]])
      ∧ anthropic_get_structured_completion envNotJson "p"
          [("a", SchemaVal.sstr "string")] none =
        (.error HandlerErr.parse,
         [anthropicStructuredReq "p" [("a", SchemaVal.sstr "string")] none])) :=
  ⟨rfl, rfl, rfl, rfl, rfl, rfl,
    openai_parse_failure_single_retry_then_default envNotJson "p"
      [("a", SchemaVal.sstr "string")] none "notjson" "notjson" "notjson"
      rfl rfl rfl rfl rfl rfl⟩

/-- Claim C4 counterexample: the Anthropic handler returns a
successfully parsed object unchanged — the schema key `b` is absent
from the result instead of being injected as an empty list. -/
theorem anthropic_returns_parsed_object_without_injection :
    (anthropic_get_structured_completion envAnthAX "p"
        [("a", SchemaVal.sstr "string"), ("b", SchemaVal.slist ["list"])] none).1
      = .ok [("a", JValue.jstr "x")]
    ∧ objHasKey [("a", JValue.jstr "x")] "b" = false := ⟨rfl, rfl⟩

/-- Claim C4 (amended): default-injection of absent schema keys happens
in the OpenAI handler's first-parse path, where the claimed
`(a: string, b: list)` example holds. -/
theorem openai_first_parse_injects_schema_defaults
    (env : Env) (p : String) (schema : Schema) (sm : Option String)
    (r1 : String) (obj : JObj)
    (h1 : env.openaiBackend (openaiFirstReq p schema sm) = .ok r1)
    (h2 : env.decode (stripFences r1) = some obj) :
    openai_get_structured_completion env p schema sm =
      (injectDefaults schema obj, [openaiFirstReq p schema sm])
    ∧ injectDefaults [("a", SchemaVal.sstr "string"), ("b", SchemaVal.slist ["list"])]
        [("a", JValue.jstr "x")] = [("a", JValue.jstr "x"), ("b", JValue.jlist [])] := by
  constructor
  · simp [openai_get_structured_completion, h1, h2]
  · rfl

/-- Concrete instance of C4's amended theorem: a backend whose response
decodes to an object missing the list-typed schema key `b`. -/
theorem openai_first_parse_injects_schema_defaults_witness :
    envOkayAX.openaiBackend
        (openaiFirstReq "p"
          [("a", SchemaVal.sstr "string"), ("b", SchemaVal.slist ["list"])] none) = .ok "resp"
    ∧ envOkayAX.decode (stripFences "resp") = some [("a", JValue.jstr "x")]
    ∧ openai_get_structured_completion envOkayAX "p"
        [("a", SchemaVal.sstr "string"), ("b", SchemaVal.slist ["list"])] none =
      ([("a", JValue.jstr "x"), ("b", JValue.jlist [])],
       [openaiFirstReq "p"
          [("a", SchemaVal.sstr "string"), ("b", SchemaVal.slist ["list"])] none]) :=
  ⟨rfl, rfl,
    (openai_first_parse_injects_schema_defaults envOkayAX "p"
      [("a", SchemaVal.sstr "string"), ("b", SchemaVal.slist ["list"])] none
      "resp" [("a", JValue.jstr "x")] rfl rfl).1⟩

/-- Claim C5: the overall match score is the 2-decimal rounding of
skills*0.4 + experience*0.3 + education*0.2 (weights summing to 0.9);
on a CV/job pair whose three sub-scores are all 100 the overall score is
exactly 90, not 100. -/
theorem match_score_weighted_sum_caps_at_ninety :
    (∀ cv job, (match_cv_to_job cv job).overall_match.score =
       round2 ((match_cv_to_job cv job).skills_match * 0.4 +
               (match_cv_to_job cv job).experience_match * 0.3 +
               (match_cv_to_job cv job).education_match * 0.2))
    ∧ calculate_skills_match ⟨[], .int 5, ""⟩ ⟨[], [], .int 0, ""⟩ = 100
    ∧ calculate_experience_match ⟨[], .int 5, ""⟩ ⟨[], [], .int 0, ""⟩ = 100
    ∧ calculate_education_match ⟨[], .int 5, ""⟩ ⟨[], [], .int 0, ""⟩ = 100
    ∧ (match_cv_to_job ⟨[], .int 5, ""⟩ ⟨[], [], .int 0, ""⟩).overall_match.score = 90 := by
  have hs : calculate_skills_match ⟨[], .int 5, ""⟩ ⟨[], [], .int 0, ""⟩ = 100 := by
    rw [show calculate_skills_match ⟨[], .int 5, ""⟩ ⟨[], [], .int 0, ""⟩ =
        round2 (100 * 0.7 + 100 * 0.3) from rfl,
      round2_eq_int _ 10000 (by norm_num)]
    norm_num
  have he : calculate_experience_match ⟨[], .int 5, ""⟩ ⟨[], [], .int 0, ""⟩ = 100 := by
    rw [show calculate_experience_match ⟨[], .int 5, ""⟩ ⟨[], [], .int 0, ""⟩ =
        round2 100 from rfl,
      round2_eq_int _ 10000 (by norm_num)]
    norm_num
  have hd : calculate_education_match ⟨[], .int 5, ""⟩ ⟨[], [], .int 0, ""⟩ = 100 := by
    rw [show calculate_education_match ⟨[], .int 5, ""⟩ ⟨[], [], .int 0, ""⟩ =
        round2 100 from rfl,
      round2_eq_int _ 10000 (by norm_num)]
    norm_num
  refine ⟨fun cv job => rfl, hs, he, hd, ?_⟩
  show round2 (calculate_skills_match ⟨[], .int 5, ""⟩ ⟨[], [], .int 0, ""⟩ *
      wlookup "required_skills" matching_weights +
    calculate_experience_match ⟨[], .int 5, ""⟩ ⟨[], [], .int 0, ""⟩ *
      wlookup "experience" matching_weights +
    calculate_education_match ⟨[], .int 5, ""⟩ ⟨[], [], .int 0, ""⟩ *
      wlookup "education" matching_weights) = 90
  rw [hs, he, hd,
    show wlookup "required_skills" matching_weights = 0.4 from rfl,
    show wlookup "experience" matching_weights = 0.3 from rfl,
    show wlookup "education" matching_weights = 0.2 from rfl,
    show (100:ℚ) * 0.4 + 100 * 0.3 + 100 * 0.2 = 90 from by norm_num,
    round2_eq_int _ 9000 (by norm_num)]
  norm_num

/-- Claim C6: the skills match score combines required-skill recall
(weight 0.7) and preferred-skill recall (weight 0.3), each recall being
`|cv ∩ requirement| / |requirement| * 100` and 100 when the requirement
set is empty. -/
theorem skills_match_recall_weighting :
    ∀ cv job, calculate_skills_match cv job =
      round2
        ((if job.required_skills.toFinset = ∅ then (100:ℚ)
          else ((cv.technical_skills.toFinset ∩ job.required_skills.toFinset).card : ℚ) /
               (job.required_skills.toFinset.card : ℚ) * 100) * 0.7 +
         (if job.preferred_skills.toFinset = ∅ then (100:ℚ)
          else ((cv.technical_skills.toFinset ∩ job.preferred_skills.toFinset).card : ℚ) /
               (job.preferred_skills.toFinset.card : ℚ) * 100) * 0.3) := by
  intro cv job
  unfold calculate_skills_match
  simp only [Finset.card_eq_zero]

/-- Claim C7: the match level is a pure step function of the score with
lower-inclusive bands at 90 / 75 / 60 / 40. -/
theorem match_level_band_characterisation :
    ∀ s : ℚ,
      (get_match_level s = "Excellent Match" ↔ 90 ≤ s)
      ∧ (get_match_level s = "Strong Match" ↔ 75 ≤ s ∧ s < 90)
      ∧ (get_match_level s = "Good Match" ↔ 60 ≤ s ∧ s < 75)
      ∧ (get_match_level s = "Partial Match" ↔ 40 ≤ s ∧ s < 60)
      ∧ (get_match_level s = "Low Match" ↔ s < 40) := by
  intro s
  unfold get_match_level
  split_ifs with h1 h2 h3 h4 <;>
    refine ⟨?_, ?_, ?_, ?_, ?_⟩ <;> simp_all <;>
      first
        | linarith
        | (intro h0; linarith)

/-- Claim C8: `calculate_overall_quality` weights cv/letter/ats as
0.4/0.3/0.3 with the 75 threshold compared against the weighted sum,
`_aggregate_results` weights ats/cv/letter as 0.4/0.4/0.2, both weight
tables sum to 1, and the two aggregations disagree (cv=0, letter=100,
ats=0 scores 30 under the former and 20 under the latter). -/
theorem two_divergent_overall_weightings :
    (∀ cv l a : ℚ, (calculate_overall_quality cv l a).overall_score =
       round2 (cv * 0.4 + l * 0.3 + a * 0.3))
    ∧ (∀ cv l a : ℚ, ((calculate_overall_quality cv l a).meets_threshold = true ↔
         75 ≤ cv * 0.4 + l * 0.3 + a * 0.3))
    ∧ (∀ a c l : ℚ, aggregate_results a c l = round2 (a * 0.4 + c * 0.4 + l * 0.2))
    ∧ (qm_overall_weights.map Prod.snd).sum = 1
    ∧ (coordinator_quality_weights.map Prod.snd).sum = 1
    ∧ (calculate_overall_quality 0 100 0).overall_score ≠ aggregate_results 0 0 100 := by
  refine ⟨fun cv l a => rfl, fun cv l a => ?_, fun a c l => rfl,
    by norm_num [qm_overall_weights], by norm_num [coordinator_quality_weights], ?_⟩
  · simp [calculate_overall_quality, wlookup, qm_overall_weights, quality_thresholds,
      decide_eq_true_eq]
  · have h1 : (calculate_overall_quality 0 100 0).overall_score = round2 30 := by
      have hw : (0:ℚ) * wlookup "cv" qm_overall_weights +
          100 * wlookup "letter" qm_overall_weights +
          0 * wlookup "ats" qm_overall_weights = 30 := by
        rw [show wlookup "cv" qm_overall_weights = 0.4 from rfl,
            show wlookup "letter" qm_overall_weights = 0.3 from rfl,
            show wlookup "ats" qm_overall_weights = 0.3 from rfl]
        norm_num
      simp only [calculate_overall_quality, hw]
    have h2 : aggregate_results 0 0 100 = round2 20 := by
      have hw : (0:ℚ) * wlookup "ats_compliance" coordinator_quality_weights +
          0 * wlookup "cv_quality" coordinator_quality_weights +
          100 * wlookup "letter_quality" coordinator_quality_weights = 20 := by
        rw [show wlookup "ats_compliance" coordinator_quality_weights = 0.4 from rfl,
            show wlookup "cv_quality" coordinator_quality_weights = 0.4 from rfl,
            show wlookup "letter_quality" coordinator_quality_weights = 0.2 from rfl]
        norm_num
      simp only [aggregate_results, hw]
    rw [h1, h2, round2_eq_int _ 3000 (by norm_num), round2_eq_int _ 2000 (by norm_num)]
    norm_num

/-- Claim C9: `validate_format` is invalid exactly when the lower-cased
extension is outside the allowed set or the size exceeds 10 MB; both
checks always run, each contributing its own issue (so both messages
appear together at `.jpg`/15), and the spec's three sample calls behave
as stated. -/
theorem validate_format_characterisation :
    (∀ (ext : String) (size : ℚ),
      ((validate_format ext size).valid = false ↔
        (allowed_formats.contains (pyLower ext) = false ∨ 10 < size))
      ∧ (validate_format ext size).issues =
          (if allowed_formats.contains (pyLower ext) then []
           else ["Unsupported format. Use .pdf, .docx"]) ++
          (if 10 < size then ["File too large. Maximum size is 10MB"] else []))
    ∧ (validate_format ".pdf" 5).valid = true
    ∧ (validate_format ".jpg" 5).valid = false
    ∧ 1 ≤ (validate_format ".jpg" 5).issues.length
    ∧ (validate_format ".pdf" 15).valid = false
    ∧ (validate_format ".jpg" 15).issues.length = 2 := by
  refine ⟨fun ext size => ?_, by decide, by decide, by decide, by decide, by decide⟩
  by_cases h1 : allowed_formats.contains (pyLower ext) <;>
    by_cases h2 : (10:ℚ) < size <;>
      simp [validate_format, h1, h2]

/-- Claim C10: a fully successful run with `generate_letter = False`
leaves `letter_generation` false while setting the later `quality_check`
flag, so the completed set is not a prefix of the stage order and the
reported status is 4 of 5 steps (80%). -/
theorem process_application_without_letter_status
    (env : WorkflowEnv)
    (h1 : env.doc_success = true) (h2 : env.cv_analyze_ok = true)
    (h3 : env.job_analyze_ok = true) (h4 : env.match_ok = true)
    (h5 : env.optimize_ok = true) (h6 : env.quality_ok = true) :
    process_application env false = (.ok (), ⟨true, true, true, false, true⟩)
    ∧ (get_workflow_status ⟨true, true, true, false, true⟩).completed_steps = 4
    ∧ (get_workflow_status ⟨true, true, true, false, true⟩).total_steps = 5
    ∧ (get_workflow_status ⟨true, true, true, false, true⟩).completion_percentage = 80
    ∧ prefixClosed ((workflow_state_list ⟨true, true, true, false, true⟩).map
        (fun p => p.2)) = false := by
  refine ⟨?_, by decide, by decide, ?_, by decide⟩
  · simp [process_application, resetStates, h1, h2, h3, h4, h5, h6]
  · have h : (get_workflow_status ⟨true, true, true, false, true⟩).completion_percentage =
        round2 ((4:ℚ) / 5 * 100) := by
      simp [get_workflow_status, workflow_state_list]
    rw [h, round2_eq_int _ 8000 (by norm_num)]
    norm_num

/-- Concrete instance of C10's theorem: every stage succeeds, the letter
writer (never invoked) would fail. -/
theorem process_application_without_letter_status_witness :
    envAllOkNoLetter.doc_success = true
    ∧ envAllOkNoLetter.cv_analyze_ok = true
    ∧ envAllOkNoLetter.job_analyze_ok = true
    ∧ envAllOkNoLetter.match_ok = true
    ∧ envAllOkNoLetter.optimize_ok = true
    ∧ envAllOkNoLetter.quality_ok = true
    ∧ process_application envAllOkNoLetter false = (.ok (), ⟨true, true, true, false, true⟩) :=
  ⟨rfl, rfl, rfl, rfl, rfl, rfl,
    (process_application_without_letter_status envAllOkNoLetter
      rfl rfl rfl rfl rfl rfl).1⟩

end CareerAssistant
